import Mathlib

/-!
Verification development for the rUniversalDB transaction-coordination
substrate.  Each namespace is a shallow embedding of one Rust module:
pure data is translated to Lean structures, each Rust handler becomes a
Lean function from the handler's inputs to a step result recording the
new state, the returned action, and the ordered list of side effects
(network sends, bundle pushes, inner-callback invocations) the handler
performed.  Rust `unwrap`/`panic!` on reachable branches is modelled by
an `Option` result, `none` standing for the panic.
-/

-- -----------------------------------------------------------------------------------------------
-- Common identifier types (model/common.rs; identifiers are opaque, so Nat suffices)
-- -----------------------------------------------------------------------------------------------

abbrev QueryId := Nat
abbrev RequestId := Nat
abbrev EndpointId := Nat
abbrev PaxosGroupId := Nat
abbrev TablePath := Nat

/-- LeadershipId = (generation, endpoint), as in model/common.rs. -/
structure LeadershipId where
  gen : Nat
  eid : EndpointId
deriving DecidableEq

-- -----------------------------------------------------------------------------------------------
-- paxos2pc_tm.rs : the generic Paxos-2PC TM (no TM-side PLms)
-- -----------------------------------------------------------------------------------------------

namespace P2TM

abbrev RMPath := Nat
abbrev TMPath := Nat

/-- `Prepare` message of paxos2pc_tm.rs; the payload is opaque to the engine. -/
structure Prepare where
  query_id : QueryId
  tm : TMPath
  rms : List RMPath
  payload : Nat
deriving DecidableEq

structure CheckPrepared where
  query_id : QueryId
  tm : TMPath
deriving DecidableEq

structure Abort where
  query_id : QueryId
  tm : TMPath
deriving DecidableEq

structure Commit where
  query_id : QueryId
  tm : TMPath
deriving DecidableEq

structure Prepared where
  query_id : QueryId
  rm : RMPath
deriving DecidableEq

structure Wait where
  query_id : QueryId
  rm : RMPath
deriving DecidableEq

/-- `RMMessage` sum of paxos2pc_tm.rs (TM-to-RM wire messages). -/
inductive RMMessage where
  | prepareMsg (p : Prepare)
  | checkPreparedMsg (c : CheckPrepared)
  | abortMsg (a : Abort)
  | commitMsg (c : Commit)
deriving DecidableEq

/-- `PreparingSt`: all RMs plus the map of RMs that have not yet responded,
modelled as an association list keyed by `RMPath`. -/
structure PreparingSt where
  all_rms : List RMPath
  rms_remaining : List (RMPath × Prepare)
deriving DecidableEq

structure CheckingPreparedSt where
  all_rms : List RMPath
  rms_remaining : List (RMPath × CheckPrepared)
deriving DecidableEq

inductive State where
  | startSt
  | preparing (s : PreparingSt)
  | checkingPrepared (s : CheckingPreparedSt)
deriving DecidableEq

inductive Paxos2PCTMAction where
  | wait
  | exit
deriving DecidableEq

/-- Side effects a TM handler can perform.  `pushTMPLm` exists in the effect
vocabulary so that its absence is expressible: the `TMServerContext` trait of
paxos2pc_tm.rs offers no PLm push at all, and no TM handler performs one. -/
inductive TMEffect where
  | sendToRM (rm : RMPath) (m : RMMessage)
  | pushTMPLm
  | invokeCommitted
  | invokeAborted
deriving DecidableEq

structure StepResult where
  state : State
  action : Paxos2PCTMAction
  effects : List TMEffect
deriving DecidableEq

/-- BTreeMap::remove on the association-list model: drop the entry with the key. -/
def removeKey (k : Nat) : List (Nat × α) → List (Nat × α)
  | [] => []
  | (k2, v) :: rest => if k2 = k then removeKey k rest else (k2, v) :: removeKey k rest

/-- BTreeMap::get on the association-list model. -/
def lookupKey (k : Nat) : List (Nat × α) → Option α
  | [] => none
  | (k2, v) :: rest => if k2 = k then some v else lookupKey k rest

/-- `Paxos2PCTMOuter::commit`: send `Commit` to every RM in `all_rms`, invoke
the inner `committed` callback, and return Exit. -/
def commit (query_id : QueryId) (tm_path : TMPath) (st : State) (all_rms : List RMPath) :
    StepResult :=
  { state := st
    action := .exit
    effects :=
      all_rms.map (fun rm => TMEffect.sendToRM rm (.commitMsg ⟨query_id, tm_path⟩))
        ++ [TMEffect.invokeCommitted] }

/-- `Paxos2PCTMOuter::handle_prepared`: in Preparing or CheckingPrepared remove
the responding RM from `rms_remaining`; commit when it becomes empty, keep
waiting otherwise; any other state is a no-op. -/
def handle_prepared (query_id : QueryId) (tm_path : TMPath) (st : State) (prepared : Prepared) :
    StepResult :=
  match st with
  | .preparing ⟨all_rms, rms_remaining⟩ =>
    let rr := removeKey prepared.rm rms_remaining
    if rr.isEmpty then
      commit query_id tm_path (.preparing ⟨all_rms, rr⟩) all_rms
    else
      { state := .preparing ⟨all_rms, rr⟩, action := .wait, effects := [] }
  | .checkingPrepared ⟨all_rms, rms_remaining⟩ =>
    let rr := removeKey prepared.rm rms_remaining
    if rr.isEmpty then
      commit query_id tm_path (.checkingPrepared ⟨all_rms, rr⟩) all_rms
    else
      { state := .checkingPrepared ⟨all_rms, rr⟩, action := .wait, effects := [] }
  | _ => { state := st, action := .wait, effects := [] }

/-- `Paxos2PCTMOuter::handle_aborted`: in Preparing or CheckingPrepared send
`Abort` to every RM, invoke the inner aborted callback, Exit. -/
def handle_aborted (query_id : QueryId) (tm_path : TMPath) (st : State) : StepResult :=
  match st with
  | .preparing ⟨all_rms, _⟩ =>
    { state := st
      action := .exit
      effects := all_rms.map (fun rm => TMEffect.sendToRM rm (.abortMsg ⟨query_id, tm_path⟩))
        ++ [TMEffect.invokeAborted] }
  | .checkingPrepared ⟨all_rms, _⟩ =>
    { state := st
      action := .exit
      effects := all_rms.map (fun rm => TMEffect.sendToRM rm (.abortMsg ⟨query_id, tm_path⟩))
        ++ [TMEffect.invokeAborted] }
  | _ => { state := st, action := .wait, effects := [] }

/-- `Paxos2PCTMOuter::handle_wait`: in CheckingPrepared look up the stored
`CheckPrepared` for the RM (Rust `unwrap`s, so a missing entry is a panic,
modelled by `none`) and re-send it; any other state is a no-op. -/
def handle_wait (st : State) (w : Wait) : Option StepResult :=
  match st with
  | .checkingPrepared ⟨_, rms_remaining⟩ =>
    match lookupKey w.rm rms_remaining with
    | some check =>
      some { state := st, action := .wait,
             effects := [TMEffect.sendToRM w.rm (.checkPreparedMsg check)] }
    | none => none
  | _ => some { state := st, action := .wait, effects := [] }

end P2TM

-- -----------------------------------------------------------------------------------------------
-- finish_query_tm_es.rs : the concrete (pre-generic) Paxos-2PC TM for FinishQuery
-- -----------------------------------------------------------------------------------------------

namespace FQTM

abbrev TQueryPath := Nat

/-- `Paxos2PCTMState` of finish_query_tm_es.rs; the `HashSet<TQueryPath>` of
remaining RMs is modelled as a list. -/
inductive Paxos2PCTMState where
  | startSt
  | preparing (remaining : List TQueryPath)
  | checkPreparing (remaining : List TQueryPath)
deriving DecidableEq

inductive FinishQueryTMAction where
  | wait
  | committed
  | aborted
deriving DecidableEq

/-- Tablet messages the FinishQuery TM can send. -/
inductive TabletMessage where
  | finishQueryPrepare (tm : QueryId) (all_rms : List TQueryPath) (query_id : QueryId)
  | finishQueryCheckPrepared (tm : QueryId) (query_id : QueryId)
  | finishQueryCommit (query_id : QueryId)
  | finishQueryAbort (query_id : QueryId)
deriving DecidableEq

structure FinishQueryTMES where
  query_id : QueryId
  all_rms : List TQueryPath
  state : Paxos2PCTMState
deriving DecidableEq

structure StepResult where
  es : FinishQueryTMES
  action : FinishQueryTMAction
  sends : List (TQueryPath × TabletMessage)
deriving DecidableEq

/-- HashSet::remove on the list model: drop the element. -/
def removeElem (x : Nat) : List Nat → List Nat
  | [] => []
  | y :: rest => if y = x then removeElem x rest else y :: removeElem x rest

/-- `FinishQueryTMES::handle_prepared`: in Preparing or CheckPreparing remove
the responding RM; when the remaining set empties, send `FinishQueryCommit` to
every RM in `all_rms` and return Committed. -/
def handle_prepared (es : FinishQueryTMES) (rm_path : TQueryPath) : StepResult :=
  match es.state with
  | .preparing remaining =>
    let rr := removeElem rm_path remaining
    if rr.isEmpty then
      { es := { es with state := .preparing rr }
        action := .committed
        sends := es.all_rms.map (fun rm => (rm, TabletMessage.finishQueryCommit rm)) }
    else
      { es := { es with state := .preparing rr }, action := .wait, sends := [] }
  | .checkPreparing remaining =>
    let rr := removeElem rm_path remaining
    if rr.isEmpty then
      { es := { es with state := .checkPreparing rr }
        action := .committed
        sends := es.all_rms.map (fun rm => (rm, TabletMessage.finishQueryCommit rm)) }
    else
      { es := { es with state := .checkPreparing rr }, action := .wait, sends := [] }
  | _ => { es := es, action := .wait, sends := [] }

/-- `FinishQueryTMES::handle_wait` (finish_query_tm_es.rs lines 128-141): in
CheckPreparing it re-sends `FinishQueryCheckPrepared` to the waiting RM, but
then returns `FinishQueryTMAction::Aborted` rather than `Wait`. -/
def handle_wait (es : FinishQueryTMES) (rm_path : TQueryPath) : StepResult :=
  match es.state with
  | .checkPreparing _ =>
    { es := es
      action := .aborted
      sends := [(rm_path, TabletMessage.finishQueryCheckPrepared es.query_id rm_path)] }
  | _ => { es := es, action := .wait, sends := [] }

end FQTM

-- -----------------------------------------------------------------------------------------------
-- stmpaxos2pc_rm.rs : the STM-2PC RM state machine
-- -----------------------------------------------------------------------------------------------

namespace StmRM

abbrev TNodePath := Nat

/-- `Prepared` RM-to-TM message; the payload is opaque to the engine. -/
structure Prepared where
  query_id : QueryId
  rm : TNodePath
  payload : Nat
deriving DecidableEq

structure Closed where
  query_id : QueryId
  rm : TNodePath
  payload : Nat
deriving DecidableEq

/-- RM-side PLms of the STM-2PC engine (payloads opaque). -/
inductive RMPLm where
  | preparedPLm (query_id : QueryId) (payload : Nat)
  | committedPLm (query_id : QueryId) (payload : Nat)
  | abortedPLm (query_id : QueryId) (payload : Nat)
deriving DecidableEq

inductive State where
  | follower
  | waitingInsertingPrepared
  | insertingPrepared
  | prepared (p : Prepared)
  | insertingCommitted
  | insertingPreparedAborted
  | insertingAborted
deriving DecidableEq

inductive STMPaxos2PCRMAction where
  | wait
  | exit
deriving DecidableEq

/-- The inner-callback payloads of `STMPaxos2PCRMInner`, recorded as data so
that the engine's handlers are deterministic functions. -/
structure Inner where
  closed_payload : Nat
  prepared_plm_payload : Nat
  prepared_payload : Nat
  committed_plm_payload : Nat
  aborted_plm_payload : Nat
deriving DecidableEq

/-- `STMPaxos2PCRMOuter` (the `inner` field holds the callback payloads). -/
structure Outer where
  query_id : QueryId
  follower : Option Prepared
  state : State
  inner : Inner
deriving DecidableEq

/-- Side effects an RM handler can perform: a network send to the master or a
push onto `ctx.tablet_bundle`. -/
inductive RMEffect where
  | sendMasterPrepared (p : Prepared)
  | sendMasterClosed (c : Closed)
  | pushPLm (plm : RMPLm)
deriving DecidableEq

structure StepResult where
  outer : Outer
  action : STMPaxos2PCRMAction
  effects : List RMEffect
deriving DecidableEq

/-- `STMPaxos2PCRMOuter::send_closed`: build a `Closed` from this node path and
the inner `mk_closed` payload and send it to the master. -/
def send_closed (node_path : TNodePath) (o : Outer) : RMEffect :=
  .sendMasterClosed ⟨o.query_id, node_path, o.inner.closed_payload⟩

/-- `STMPaxos2PCRMOuter::handle_prepare`: if already Prepared, re-send the
recorded `Prepared` to the master; always Wait. -/
def handle_prepare (o : Outer) : StepResult :=
  match o.state with
  | .prepared prepared =>
    { outer := o, action := .wait, effects := [.sendMasterPrepared prepared] }
  | _ => { outer := o, action := .wait, effects := [] }

/-- `STMPaxos2PCRMOuter::handle_abort` (stmpaxos2pc_rm.rs lines 129-154). -/
def handle_abort (node_path : TNodePath) (o : Outer) : StepResult :=
  match o.state with
  | .waitingInsertingPrepared =>
    { outer := o, action := .exit, effects := [send_closed node_path o] }
  | .insertingPrepared =>
    { outer := { o with state := .insertingPreparedAborted }, action := .wait, effects := [] }
  | .prepared _ =>
    { outer := { o with state := .insertingAborted }
      action := .wait
      effects := [.pushPLm (.abortedPLm o.query_id o.inner.aborted_plm_payload)] }
  | _ => { outer := o, action := .wait, effects := [] }

/-- `STMPaxos2PCRMOuter::handle_prepared_plm` (stmpaxos2pc_rm.rs lines
173-196): `_handle_prepared_plm` records the `Prepared` in `follower`; in
InsertingPrepared the `Prepared` is sent and the state becomes Prepared; in
InsertingPreparedAborted an `RMAbortedPLm` is pushed instead. -/
def handle_prepared_plm (node_path : TNodePath) (o : Outer) : StepResult :=
  match o.state with
  | .insertingPrepared =>
    let prepared : Prepared := ⟨o.query_id, node_path, o.inner.prepared_payload⟩
    { outer := { o with follower := some prepared, state := .prepared prepared }
      action := .wait
      effects := [.sendMasterPrepared prepared] }
  | .insertingPreparedAborted =>
    let prepared : Prepared := ⟨o.query_id, node_path, o.inner.prepared_payload⟩
    { outer := { o with follower := some prepared, state := .insertingAborted }
      action := .wait
      effects := [.pushPLm (.abortedPLm o.query_id o.inner.aborted_plm_payload)] }
  | _ => { outer := o, action := .wait, effects := [] }

/-- `STMPaxos2PCRMOuter::leader_changed` (stmpaxos2pc_rm.rs lines 258-275).
In Follower, if this node just became leader the recorded `Prepared` is
`unwrap`ped (`none` models the panic) and the state resumes Prepared --
note that no message is sent here. -/
def leader_changed (is_leader : Bool) (o : Outer) : Option StepResult :=
  match o.state with
  | .follower =>
    if is_leader then
      match o.follower with
      | some prepared =>
        some { outer := { o with state := .prepared prepared }, action := .wait, effects := [] }
      | none => none
    else
      some { outer := o, action := .wait, effects := [] }
  | .waitingInsertingPrepared | .insertingPrepared | .insertingPreparedAborted =>
    some { outer := o, action := .exit, effects := [] }
  | .prepared _ | .insertingCommitted | .insertingAborted =>
    some { outer := { o with state := .follower }, action := .wait, effects := [] }

end StmRM

-- -----------------------------------------------------------------------------------------------
-- stmpaxos2pc.rs : the STM-2PC TM state machine
-- -----------------------------------------------------------------------------------------------

namespace StmTM

abbrev TNodePath := Nat

structure PreparingSt where
  rms_remaining : List TNodePath
  prepared : List (TNodePath × Nat)
deriving DecidableEq

structure CommittedSt where
  rms_remaining : List TNodePath
deriving DecidableEq

structure AbortedSt where
  rms_remaining : List TNodePath
deriving DecidableEq

/-- `State` of stmpaxos2pc.rs (TM side). -/
inductive State where
  | following
  | startSt
  | waitingInsertTMPrepared
  | insertTMPreparing
  | preparing (s : PreparingSt)
  | insertingTMCommitted
  | committed (s : CommittedSt)
  | insertingTMAborted
  | aborted (s : AbortedSt)
  | insertingTMClosed
deriving DecidableEq

inductive STMPaxos2PCAction where
  | wait
  | exit
deriving DecidableEq

/-- Side effects of the STM-2PC TM: sends to tablets, pushes onto the master
bundle, and inner-callback invocations. -/
inductive TMEffect where
  | sendToT (rm : TNodePath) (m : Nat)
  | pushMasterPLm (plm : Nat)
  | invokeClosedCallback
  | broadcastGossip
deriving DecidableEq

structure Outer where
  query_id : QueryId
  state : State
deriving DecidableEq

structure StepResult where
  outer : Outer
  action : STMPaxos2PCAction
  effects : List TMEffect
deriving DecidableEq

/-- `STMPaxos2PCOuter::handle_closed_plm` (stmpaxos2pc.rs lines 464-481): the
inner `closed_plm_inserted` callback runs and Exit is returned only in
Following and InsertingTMClosed; every other state returns Wait untouched. -/
def handle_closed_plm (o : Outer) : StepResult :=
  match o.state with
  | .following =>
    { outer := o, action := .exit, effects := [.invokeClosedCallback] }
  | .insertingTMClosed =>
    { outer := o, action := .exit, effects := [.invokeClosedCallback] }
  | _ => { outer := o, action := .wait, effects := [] }

end StmTM

-- -----------------------------------------------------------------------------------------------
-- bin/stmpaxos2pc_sim/slave.rs : leader map maintenance and bundle dispatch
-- -----------------------------------------------------------------------------------------------

namespace SimSlave

/-- `RemoteLeaderChangedPLm` (common.rs). -/
structure RemoteLeaderChangedPLm where
  gid : PaxosGroupId
  lid : LeadershipId
deriving DecidableEq

abbrev SlavePLm := Nat
abbrev Payload := Nat

/-- `SlaveBundle`: remote-leadership observations plus PLms. -/
structure SlaveBundle where
  remote_leader_changes : List RemoteLeaderChangedPLm
  plms : List SlavePLm
deriving DecidableEq

/-- The leader map `BTreeMap<PaxosGroupId, LeadershipId>`, modelled as a total
function (the code `unwrap`s every lookup: all groups are present from
construction). -/
abbrev LeaderMap := PaxosGroupId → LeadershipId

/-- `SlaveContext::handle_input`, case `SlaveForwardMsg::RemoteLeaderChanged`
(bin/stmpaxos2pc_sim/slave.rs lines 355-370), restricted to its effect on the
leader map: the entry for `gid` is overwritten only when the incoming
generation strictly exceeds the recorded one. -/
def apply_remote_leader_changed (m : LeaderMap) (r : RemoteLeaderChangedPLm) : LeaderMap :=
  if r.lid.gen > (m r.gid).gen then
    fun g => if g = r.gid then r.lid else m g
  else
    m

/-- `SlaveContext::handle_full_input`, case `RemoteLeaderChangedGossip`
(bin/stmpaxos2pc_sim/slave.rs lines 229-238): a leader appends the observation
to the pending bundle only when the gossiped generation strictly exceeds the
recorded one; the leader map itself is never touched here.  Returns the (map,
bundle) pair after the step. -/
def handle_gossip (is_leader : Bool) (m : LeaderMap) (bundle : SlaveBundle)
    (gid : PaxosGroupId) (lid : LeadershipId) : LeaderMap × SlaveBundle :=
  if is_leader then
    if lid.gen > (m gid).gen then
      (m, { bundle with
            remote_leader_changes := bundle.remote_leader_changes ++ [⟨gid, lid⟩] })
    else
      (m, bundle)
  else
    (m, bundle)

/-- The inputs `handle_full_input` forwards into `handle_input` while applying
a committed `PLEntry::Bundle`. -/
inductive SlaveForwardMsg where
  | remoteLeaderChanged (r : RemoteLeaderChangedPLm)
  | slaveBundle (plms : List SlavePLm)
  | slaveRemotePayload (p : Payload)
deriving DecidableEq

/-- Modelled from the spec: the network driver's buffer of payloads indexed by
the sender leadership that has not been learned yet (network_driver.rs is not
under src/; spec section 4.3 describes `deliver_blocked_messages` as draining,
in buffer order, the payloads stored under the given leadership). -/
abbrev NetworkBuffer := PaxosGroupId → LeadershipId → List Payload

/-- First dispatch loop of `PLEntry::Bundle` handling: forward each
remote-leadership observation, in order. -/
def dispatch_observations : List RemoteLeaderChangedPLm → List SlaveForwardMsg
  | [] => []
  | r :: rest => .remoteLeaderChanged r :: dispatch_observations rest

/-- Third dispatch loop of `PLEntry::Bundle` handling: for each observation,
in order, forward the payloads it unblocked in the network driver, in buffer
order. -/
def dispatch_flush (buffer : NetworkBuffer) : List RemoteLeaderChangedPLm → List SlaveForwardMsg
  | [] => []
  | r :: rest =>
    (buffer r.gid r.lid).map SlaveForwardMsg.slaveRemotePayload ++ dispatch_flush buffer rest

/-- `SlaveContext::handle_full_input`, case `PLEntry::Bundle`
(bin/stmpaxos2pc_sim/slave.rs lines 239-261): the ordered sequence of inputs
forwarded into the state machine -- observations first, then the PLm batch,
then the flushed payloads. -/
def handle_bundle (buffer : NetworkBuffer) (b : SlaveBundle) : List SlaveForwardMsg :=
  dispatch_observations b.remote_leader_changes
    ++ ([SlaveForwardMsg.slaveBundle b.plms] ++ dispatch_flush buffer b.remote_leader_changes)

end SimSlave

-- -----------------------------------------------------------------------------------------------
-- ms_query_coord_es.rs + slave.rs : MSQuery coordinator abort handling and retry
-- -----------------------------------------------------------------------------------------------

namespace MSCoord

abbrev Timestamp := Nat

/-- `msg::QueryError` variants matched by `handle_tm_aborted`. -/
inductive QueryError where
  | typeError
  | runtimeError
  | writeRegionConflictWithSubsequentRead
  | deadlockSafetyAbortion
  | timestampConflict
  | lateralError
  | invalidQueryPlan
  | invalidLeadershipId
deriving DecidableEq

inductive ExternalAbortedData where
  | queryExecutionError
deriving DecidableEq

inductive MSQueryCoordAction where
  | wait
  | fatalFailure (payload : ExternalAbortedData)
  | nonFatalFailure
deriving DecidableEq

/-- `FullMSCoordES::handle_tm_aborted` (ms_query_coord_es.rs lines 216-245):
type and runtime errors exit-and-clean-up and report a fatal
QueryExecutionError; region conflicts, deadlock-safety abortions and
timestamp conflicts exit-and-clean-up and report a non-fatal failure; the
remaining variants hit `panic!` arms (`none`). -/
def handle_tm_aborted : QueryError → Option MSQueryCoordAction
  | .typeError => some (.fatalFailure .queryExecutionError)
  | .runtimeError => some (.fatalFailure .queryExecutionError)
  | .writeRegionConflictWithSubsequentRead => some .nonFatalFailure
  | .deadlockSafetyAbortion => some .nonFatalFailure
  | .timestampConflict => some .nonFatalFailure
  | .lateralError => none
  | .invalidQueryPlan => none
  | .invalidLeadershipId => none

/-- The per-request coordinator entry of slave.rs (`MSCoordESWrapper`),
restricted to the fields the retry path reads and writes. -/
structure MSCoordESWrapper where
  request_id : RequestId
  sender_eid : EndpointId
  es_query_id : QueryId
  es_timestamp : Timestamp
deriving DecidableEq

/-- HashMap::get_mut + assignment on the association-list model; `none` models
the Rust `unwrap` panic when the key is absent. -/
def updateKey (k : Nat) (v : Nat) : List (Nat × Nat) → Option (List (Nat × Nat))
  | [] => none
  | (k2, v2) :: rest =>
    if k2 = k then some ((k2, v) :: rest)
    else (updateKey k v rest).map (fun r => (k2, v2) :: r)

/-- `SlaveContext::handle_ms_coord_action`, case `NonFatalFailure` (slave.rs
lines 556-580): the execution state is discarded and rebuilt with a freshly
generated QueryId and a timestamp drawn from `clock.now()`, and the request-id
map entry for the original RequestId is repointed at the new QueryId. -/
def handle_non_fatal_failure (new_qid : QueryId) (now : Timestamp) (w : MSCoordESWrapper)
    (req_map : List (RequestId × QueryId)) :
    Option (MSCoordESWrapper × List (RequestId × QueryId)) :=
  (updateKey w.request_id new_qid req_map).map
    (fun req_map2 => ({ w with es_query_id := new_qid, es_timestamp := now }, req_map2))

end MSCoord

-- -----------------------------------------------------------------------------------------------
-- slave.rs : PerformExternalQuery admission (init_request)
-- -----------------------------------------------------------------------------------------------

namespace SlaveInit

abbrev MSQuery := Nat

structure PerformExternalQuery where
  sender_eid : EndpointId
  request_id : RequestId
  query : Nat
deriving DecidableEq

inductive ExternalAbortedData where
  | nonUniqueRequestId
  | parseError (err_msg : Nat)
deriving DecidableEq

inductive NetworkMessage where
  | externalQueryAborted (request_id : RequestId) (payload : ExternalAbortedData)
deriving DecidableEq

/-- `SlaveContext::init_request` (slave.rs lines 315-339): a duplicate
RequestId aborts with NonUniqueRequestId before any parsing; otherwise the
query text is parsed and converted (abstracted as the `parse` argument). -/
def init_request (parse : Nat → Except ExternalAbortedData MSQuery)
    (external_request_id_map : List (RequestId × QueryId)) (q : PerformExternalQuery) :
    Except ExternalAbortedData MSQuery :=
  if (P2TM.lookupKey q.request_id external_request_id_map).isSome then
    .error .nonUniqueRequestId
  else
    parse q.query

structure HandleResult where
  external_request_id_map : List (RequestId × QueryId)
  /-- The QueryId of the `MSCoordESWrapper` inserted into `statuses`, if any. -/
  new_coord : Option QueryId
  sends : List (EndpointId × NetworkMessage)
deriving DecidableEq

/-- `SlaveContext::handle_incoming_message`, case `PerformExternalQuery`
(slave.rs lines 143-176).  On Ok a fresh QueryId is recorded in the map and a
coordinator entry is created (the started ES's own outputs are outside this
claim); on Err the abort payload is sent back to the sender and nothing else
changes. -/
def handle_perform_external_query (parse : Nat → Except ExternalAbortedData MSQuery)
    (new_qid : QueryId) (external_request_id_map : List (RequestId × QueryId))
    (q : PerformExternalQuery) : HandleResult :=
  match init_request parse external_request_id_map q with
  | .ok _ms_query =>
    { external_request_id_map := (q.request_id, new_qid) :: external_request_id_map
      new_coord := some new_qid
      sends := [] }
  | .error payload =>
    { external_request_id_map := external_request_id_map
      new_coord := none
      sends := [(q.sender_eid, .externalQueryAborted q.request_id payload)] }

end SlaveInit

-- -----------------------------------------------------------------------------------------------
-- create_table_tm_es.rs : CreateTable commit-timestamp computation
-- -----------------------------------------------------------------------------------------------

namespace CreateTable

abbrev Timestamp := Nat
abbrev Gen := Nat
abbrev FullGen := Gen × Gen

/-- Modelled from the spec: the multiversion map `MVM<TablePath, FullGen>`
(multiversion_map.rs is not under src/).  `get_lat` returns the last-access
timestamp recorded for a key; `write` records a value at a timestamp and
advances the lat. -/
structure MVM where
  get_lat : TablePath → Timestamp
  get_last_present_version : TablePath → Option FullGen

def MVM.write (m : MVM) (path : TablePath) (value : Option FullGen) (timestamp : Timestamp) :
    MVM :=
  { get_lat := fun p => if p = path then max (m.get_lat p) timestamp else m.get_lat p
    get_last_present_version := fun p =>
      if p = path then value else m.get_last_present_version p }

/-- The slice of `GossipData` that `apply_create` reads and writes for the
commit timestamp (the db_schema / sharding_config / tablet_address_config
updates of apply_create carry no timestamp information). -/
structure GossipData where
  table_generation : MVM

/-- `next_gen` of create_table_tm_es.rs. -/
def next_gen : Option FullGen → Gen
  | some (gen, _) => gen + 1
  | none => 0

structure CreateTableTMClosed where
  timestamp_hint : Option Timestamp
deriving DecidableEq

/-- `CreateTableTMInner::apply_create` (create_table_tm_es.rs lines 162-207):
`commit_timestamp = max(timestamp_hint, table_generation.get_lat(path) + 1)`,
then `table_generation` is written at that timestamp with the next
generation.  Returns the commit timestamp together with the updated gossip. -/
def apply_create (g : GossipData) (table_path : TablePath) (timestamp_hint : Timestamp) :
    Timestamp × GossipData :=
  let commit_timestamp := max timestamp_hint (g.table_generation.get_lat table_path + 1)
  let gen := next_gen (g.table_generation.get_last_present_version table_path)
  let full_gen : FullGen := (gen, 0)
  (commit_timestamp,
    { table_generation := g.table_generation.write table_path (some full_gen) commit_timestamp })

/-- `CreateTableTMInner::mk_closed_plm` (create_table_tm_es.rs lines 329-340):
the hint is the wall-clock value drawn through the I/O facade (`now`) exactly
when the transaction committed. -/
def mk_closed_plm (did_commit : Bool) (now : Timestamp) : CreateTableTMClosed :=
  { timestamp_hint := if did_commit then some now else none }

end CreateTable

-- -----------------------------------------------------------------------------------------------
-- Concrete instances used by counterexamples and witnesses
-- -----------------------------------------------------------------------------------------------

/-- An STM-2PC TM instance sitting in state Start. -/
def stmTMStartOuter : StmTM.Outer := { query_id := 0, state := .startSt }

/-- A recorded `Prepared` payload of an STM-2PC RM. -/
def rmPrepared0 : StmRM.Prepared := { query_id := 0, rm := 1, payload := 0 }

def rmInner0 : StmRM.Inner :=
  { closed_payload := 0, prepared_plm_payload := 0, prepared_payload := 0,
    committed_plm_payload := 0, aborted_plm_payload := 0 }

/-- An STM-2PC RM instance in state Follower holding a recorded Prepared. -/
def rmFollowerOuter : StmRM.Outer :=
  { query_id := 0, follower := some rmPrepared0, state := .follower, inner := rmInner0 }

/-- Recognizer for a `Prepared` re-send among RM effects. -/
def isSendPrepared : StmRM.RMEffect → Bool
  | .sendMasterPrepared _ => true
  | _ => false

/-- A FinishQuery TM instance in state CheckPreparing with RMs 1 and 2 still
outstanding. -/
def fqCheckES : FQTM.FinishQueryTMES :=
  { query_id := 0, all_rms := [1, 2], state := .checkPreparing [1, 2] }


-- -----------------------------------------------------------------------------------------------
-- Theorems
-- -----------------------------------------------------------------------------------------------

/-- Claim C1: for every Paxos-2PC TM instance -- covering both the generic
`Paxos2PCTMOuter` of paxos2pc_tm.rs and the parallel `FinishQueryTMES` of
finish_query_tm_es.rs -- in state Preparing or CheckingPrepared, a `Prepared`
from RM r removes r from `rms_remaining`; if the set thereby empties the TM
sends `Commit` to every RM in `all_rms` and commits (the generic engine
invokes the inner committed callback and exits; the FinishQuery TM returns
the Committed action to its coordinator); if some RM has not yet replied
Prepared, nothing is sent and the TM keeps waiting.  No TM-side PLm is pushed
in any of these steps: the generic steps' effect lists contain no
`pushTMPLm`, and the FinishQuery TM's step results carry network sends only
(finish_query_tm_es.rs has no bundle to push to). -/
theorem C1_paxos2pc_tm_handle_prepared (query_id : QueryId) (tm_path : P2TM.TMPath)
    (all_rms : List P2TM.RMPath) (rrP : List (P2TM.RMPath × P2TM.Prepare))
    (rrC : List (P2TM.RMPath × P2TM.CheckPrepared)) (p : P2TM.Prepared)
    (fq_q : QueryId) (fq_all remP remC : List FQTM.TQueryPath) (r : FQTM.TQueryPath) :
    (P2TM.removeKey p.rm rrP = [] →
      P2TM.handle_prepared query_id tm_path (.preparing ⟨all_rms, rrP⟩) p =
        ⟨.preparing ⟨all_rms, []⟩, .exit,
          all_rms.map (fun rm => .sendToRM rm (.commitMsg ⟨query_id, tm_path⟩))
            ++ [.invokeCommitted]⟩) ∧
    (P2TM.removeKey p.rm rrP ≠ [] →
      P2TM.handle_prepared query_id tm_path (.preparing ⟨all_rms, rrP⟩) p =
        ⟨.preparing ⟨all_rms, P2TM.removeKey p.rm rrP⟩, .wait, []⟩) ∧
    (P2TM.removeKey p.rm rrC = [] →
      P2TM.handle_prepared query_id tm_path (.checkingPrepared ⟨all_rms, rrC⟩) p =
        ⟨.checkingPrepared ⟨all_rms, []⟩, .exit,
          all_rms.map (fun rm => .sendToRM rm (.commitMsg ⟨query_id, tm_path⟩))
            ++ [.invokeCommitted]⟩) ∧
    (P2TM.removeKey p.rm rrC ≠ [] →
      P2TM.handle_prepared query_id tm_path (.checkingPrepared ⟨all_rms, rrC⟩) p =
        ⟨.checkingPrepared ⟨all_rms, P2TM.removeKey p.rm rrC⟩, .wait, []⟩) ∧
    (∀ st : P2TM.State,
      P2TM.TMEffect.pushTMPLm ∉ (P2TM.handle_prepared query_id tm_path st p).effects) ∧
    (FQTM.removeElem r remP = [] →
      FQTM.handle_prepared ⟨fq_q, fq_all, .preparing remP⟩ r =
        ⟨⟨fq_q, fq_all, .preparing []⟩, .committed,
          fq_all.map (fun rm => (rm, .finishQueryCommit rm))⟩) ∧
    (FQTM.removeElem r remP ≠ [] →
      FQTM.handle_prepared ⟨fq_q, fq_all, .preparing remP⟩ r =
        ⟨⟨fq_q, fq_all, .preparing (FQTM.removeElem r remP)⟩, .wait, []⟩) ∧
    (FQTM.removeElem r remC = [] →
      FQTM.handle_prepared ⟨fq_q, fq_all, .checkPreparing remC⟩ r =
        ⟨⟨fq_q, fq_all, .checkPreparing []⟩, .committed,
          fq_all.map (fun rm => (rm, .finishQueryCommit rm))⟩) ∧
    (FQTM.removeElem r remC ≠ [] →
      FQTM.handle_prepared ⟨fq_q, fq_all, .checkPreparing remC⟩ r =
        ⟨⟨fq_q, fq_all, .checkPreparing (FQTM.removeElem r remC)⟩, .wait, []⟩) := by
  refine ⟨?_, ?_, ?_, ?_, ?_, ?_, ?_, ?_, ?_⟩
  · intro h
    simp [P2TM.handle_prepared, h, P2TM.commit]
  · intro h
    simp [P2TM.handle_prepared, List.isEmpty_iff, h]
  · intro h
    simp [P2TM.handle_prepared, h, P2TM.commit]
  · intro h
    simp [P2TM.handle_prepared, List.isEmpty_iff, h]
  · intro st
    match st with
    | .startSt => simp [P2TM.handle_prepared]
    | .preparing ⟨arms, rr⟩ =>
      by_cases h : (P2TM.removeKey p.rm rr).isEmpty <;>
        simp [P2TM.handle_prepared, h, P2TM.commit, List.mem_map]
    | .checkingPrepared ⟨arms, rr⟩ =>
      by_cases h : (P2TM.removeKey p.rm rr).isEmpty <;>
        simp [P2TM.handle_prepared, h, P2TM.commit, List.mem_map]
  · intro h
    simp [FQTM.handle_prepared, h]
  · intro h
    simp [FQTM.handle_prepared, List.isEmpty_iff, h]
  · intro h
    simp [FQTM.handle_prepared, h]
  · intro h
    simp [FQTM.handle_prepared, List.isEmpty_iff, h]

/-- Witness for C1 at concrete inputs, for both engines: with one RM still
outstanding the step only removes the responder and waits; with the last RM
responding the step commits. -/
theorem C1_witness :
    (P2TM.handle_prepared 5 7 (.preparing ⟨[1, 2], [(1, ⟨5, 7, [1, 2], 0⟩), (2, ⟨5, 7, [1, 2], 1⟩)]⟩) ⟨5, 1⟩ =
      ⟨.preparing ⟨[1, 2], P2TM.removeKey 1 [(1, ⟨5, 7, [1, 2], 0⟩), (2, ⟨5, 7, [1, 2], 1⟩)]⟩, .wait, []⟩) ∧
    (P2TM.handle_prepared 5 7 (.preparing ⟨[1, 2], [(2, ⟨5, 7, [1, 2], 1⟩)]⟩) ⟨5, 2⟩ =
      ⟨.preparing ⟨[1, 2], []⟩, .exit,
        [1, 2].map (fun rm => .sendToRM rm (.commitMsg ⟨5, 7⟩)) ++ [.invokeCommitted]⟩) ∧
    (FQTM.handle_prepared ⟨0, [1, 2], .preparing [1, 2]⟩ 1 =
      ⟨⟨0, [1, 2], .preparing (FQTM.removeElem 1 [1, 2])⟩, .wait, []⟩) ∧
    (FQTM.handle_prepared ⟨0, [1, 2], .checkPreparing [2]⟩ 2 =
      ⟨⟨0, [1, 2], .checkPreparing []⟩, .committed,
        [1, 2].map (fun rm => (rm, .finishQueryCommit rm))⟩) :=
  ⟨(C1_paxos2pc_tm_handle_prepared 5 7 [1, 2] [(1, ⟨5, 7, [1, 2], 0⟩), (2, ⟨5, 7, [1, 2], 1⟩)] [] ⟨5, 1⟩ 0 [] [] [] 0).2.1 (by decide),
   (C1_paxos2pc_tm_handle_prepared 5 7 [1, 2] [(2, ⟨5, 7, [1, 2], 1⟩)] [] ⟨5, 2⟩ 0 [] [] [] 0).1 (by decide),
   (C1_paxos2pc_tm_handle_prepared 0 0 [] [] [] ⟨0, 0⟩ 0 [1, 2] [1, 2] [] 1).2.2.2.2.2.2.1 (by decide),
   (C1_paxos2pc_tm_handle_prepared 0 0 [] [] [] ⟨0, 0⟩ 0 [1, 2] [] [2] 2).2.2.2.2.2.2.2.1 (by decide)⟩

/-- Claim C2: the generation recorded in the leader map for any group never
decreases under a RemoteLeaderChanged observation (applied only when strictly
newer), and a RemoteLeaderChangedGossip whose generation does not exceed the
recorded value adds no observation to the pending bundle and leaves the
leader map unchanged. -/
theorem C2_generation_monotonicity (m : SimSlave.LeaderMap)
    (r : SimSlave.RemoteLeaderChangedPLm) (is_leader : Bool) (bundle : SimSlave.SlaveBundle)
    (gid : PaxosGroupId) (lid : LeadershipId) :
    (∀ g, (m g).gen ≤ ((SimSlave.apply_remote_leader_changed m r) g).gen) ∧
    (lid.gen ≤ (m gid).gen →
      SimSlave.handle_gossip is_leader m bundle gid lid = (m, bundle)) := by
  constructor
  · intro g
    unfold SimSlave.apply_remote_leader_changed
    by_cases hgt : (m r.gid).gen < r.lid.gen
    · simp only [hgt, if_pos, gt_iff_lt]
      by_cases hg : g = r.gid
      · subst hg
        rw [if_pos rfl]
        omega
      · simp [hg]
    · simp [hgt]
  · intro h
    unfold SimSlave.handle_gossip
    have hnot : ¬ (m gid).gen < lid.gen := by omega
    cases is_leader <;> simp [hnot]

/-- Witness for C2 at concrete inputs: gossip with generation 2 against a
recorded generation 3 changes nothing. -/
theorem C2_witness :
    SimSlave.handle_gossip true (fun _ => ⟨3, 0⟩) ⟨[], []⟩ 0 ⟨2, 9⟩ =
      ((fun _ => ⟨3, 0⟩ : SimSlave.LeaderMap), (⟨[], []⟩ : SimSlave.SlaveBundle)) :=
  (C2_generation_monotonicity (fun _ => ⟨3, 0⟩) ⟨0, ⟨0, 0⟩⟩ true ⟨[], []⟩ 0 ⟨2, 9⟩).2
    (by decide)

/-- Claim C3: an STM-2PC RM receiving Abort: in WaitingInsertingPrepared it
sends a Closed reply and exits without pushing any PLm; in InsertingPrepared
it moves to InsertingPreparedAborted (and when its RMPreparedPLm later applies
in that state it pushes an RMAbortedPLm and moves to InsertingAborted); in
Prepared it pushes an RMAbortedPLm and moves to InsertingAborted; in every
other state (Follower, InsertingCommitted, InsertingAborted, and
InsertingPreparedAborted itself) the Abort has no effect. -/
theorem C3_stm_rm_handle_abort (np : StmRM.TNodePath) (q : QueryId)
    (fol : Option StmRM.Prepared) (inner : StmRM.Inner) (p : StmRM.Prepared) :
    (StmRM.handle_abort np ⟨q, fol, .waitingInsertingPrepared, inner⟩ =
      ⟨⟨q, fol, .waitingInsertingPrepared, inner⟩, .exit,
        [.sendMasterClosed ⟨q, np, inner.closed_payload⟩]⟩) ∧
    (StmRM.handle_abort np ⟨q, fol, .insertingPrepared, inner⟩ =
      ⟨⟨q, fol, .insertingPreparedAborted, inner⟩, .wait, []⟩) ∧
    (StmRM.handle_prepared_plm np ⟨q, fol, .insertingPreparedAborted, inner⟩ =
      ⟨⟨q, some ⟨q, np, inner.prepared_payload⟩, .insertingAborted, inner⟩, .wait,
        [.pushPLm (.abortedPLm q inner.aborted_plm_payload)]⟩) ∧
    (StmRM.handle_abort np ⟨q, fol, .prepared p, inner⟩ =
      ⟨⟨q, fol, .insertingAborted, inner⟩, .wait,
        [.pushPLm (.abortedPLm q inner.aborted_plm_payload)]⟩) ∧
    (StmRM.handle_abort np ⟨q, fol, .follower, inner⟩ =
      ⟨⟨q, fol, .follower, inner⟩, .wait, []⟩) ∧
    (StmRM.handle_abort np ⟨q, fol, .insertingCommitted, inner⟩ =
      ⟨⟨q, fol, .insertingCommitted, inner⟩, .wait, []⟩) ∧
    (StmRM.handle_abort np ⟨q, fol, .insertingAborted, inner⟩ =
      ⟨⟨q, fol, .insertingAborted, inner⟩, .wait, []⟩) ∧
    (StmRM.handle_abort np ⟨q, fol, .insertingPreparedAborted, inner⟩ =
      ⟨⟨q, fol, .insertingPreparedAborted, inner⟩, .wait, []⟩) :=
  ⟨rfl, rfl, rfl, rfl, rfl, rfl, rfl, rfl⟩

/-- Counterexample to Claim C4: when TMClosedPLm applies to an STM-2PC TM in
state Start, the handler neither invokes the inner closed callback nor exits;
the claim's "in any state" fails. -/
theorem C4_counterexample :
    (StmTM.handle_closed_plm stmTMStartOuter).action ≠ StmTM.STMPaxos2PCAction.exit ∧
    (StmTM.handle_closed_plm stmTMStartOuter).effects = [] := by
  constructor
  · decide
  · rfl

/-- Claim C4 (amended): when TMClosedPLm applies in state Following or
InsertingTMClosed, the inner closed callback is invoked and the instance
exits; in every other state the handler does nothing and returns Wait. -/
theorem C4_stm_tm_handle_closed_plm (q : QueryId) (sP : StmTM.PreparingSt)
    (sC : StmTM.CommittedSt) (sA : StmTM.AbortedSt) :
    (StmTM.handle_closed_plm ⟨q, .following⟩ =
      ⟨⟨q, .following⟩, .exit, [.invokeClosedCallback]⟩) ∧
    (StmTM.handle_closed_plm ⟨q, .insertingTMClosed⟩ =
      ⟨⟨q, .insertingTMClosed⟩, .exit, [.invokeClosedCallback]⟩) ∧
    (StmTM.handle_closed_plm ⟨q, .startSt⟩ = ⟨⟨q, .startSt⟩, .wait, []⟩) ∧
    (StmTM.handle_closed_plm ⟨q, .waitingInsertTMPrepared⟩ =
      ⟨⟨q, .waitingInsertTMPrepared⟩, .wait, []⟩) ∧
    (StmTM.handle_closed_plm ⟨q, .insertTMPreparing⟩ =
      ⟨⟨q, .insertTMPreparing⟩, .wait, []⟩) ∧
    (StmTM.handle_closed_plm ⟨q, .preparing sP⟩ = ⟨⟨q, .preparing sP⟩, .wait, []⟩) ∧
    (StmTM.handle_closed_plm ⟨q, .insertingTMCommitted⟩ =
      ⟨⟨q, .insertingTMCommitted⟩, .wait, []⟩) ∧
    (StmTM.handle_closed_plm ⟨q, .committed sC⟩ = ⟨⟨q, .committed sC⟩, .wait, []⟩) ∧
    (StmTM.handle_closed_plm ⟨q, .insertingTMAborted⟩ =
      ⟨⟨q, .insertingTMAborted⟩, .wait, []⟩) ∧
    (StmTM.handle_closed_plm ⟨q, .aborted sA⟩ = ⟨⟨q, .aborted sA⟩, .wait, []⟩) :=
  ⟨rfl, rfl, rfl, rfl, rfl, rfl, rfl, rfl, rfl, rfl⟩

/-- Counterexample to Claim C5: an STM-2PC RM in state Follower holding a
recorded Prepared, promoted to leader, resumes state Prepared but sends
nothing at all -- in particular it does not re-send its Prepared message. -/
theorem C5_counterexample :
    StmRM.leader_changed true rmFollowerOuter =
      some ⟨{ rmFollowerOuter with state := .prepared rmPrepared0 }, .wait, []⟩ ∧
    StmRM.RMEffect.sendMasterPrepared rmPrepared0 ∉
      (((StmRM.leader_changed true rmFollowerOuter).map StmRM.StepResult.effects).getD []) := by
  exact ⟨rfl, by decide⟩

/-- Claim C5 (amended): on promotion, a Follower holding a recorded Prepared
resumes state Prepared without emitting any message; the Prepared message is
re-sent to the TM only when a (re-sent) Prepare next arrives in state
Prepared, via handle_prepare. -/
theorem C5_stm_rm_leader_changed_resume (q : QueryId) (p : StmRM.Prepared)
    (inner : StmRM.Inner) :
    (StmRM.leader_changed true ⟨q, some p, .follower, inner⟩ =
      some ⟨⟨q, some p, .prepared p, inner⟩, .wait, []⟩) ∧
    (StmRM.handle_prepare ⟨q, some p, .prepared p, inner⟩ =
      ⟨⟨q, some p, .prepared p, inner⟩, .wait, [.sendMasterPrepared p]⟩) :=
  ⟨rfl, rfl⟩

/-- Claim C6 (code bug): the FinishQuery Paxos-2PC TM in state CheckPreparing,
on receiving a Wait from RM 1, does re-send CheckPrepared to that RM but then
returns FinishQueryTMAction.Aborted instead of continuing to wait, while the
generic engine's handle_wait keeps waiting in the same situation. -/
theorem C6_finish_query_handle_wait_aborts :
    (FQTM.handle_wait fqCheckES 1 =
      ⟨fqCheckES, .aborted, [(1, .finishQueryCheckPrepared 0 1)]⟩) ∧
    (P2TM.handle_wait (.checkingPrepared ⟨[1, 2], [(1, ⟨0, 7⟩), (2, ⟨0, 7⟩)]⟩) ⟨0, 1⟩ =
      some ⟨.checkingPrepared ⟨[1, 2], [(1, ⟨0, 7⟩), (2, ⟨0, 7⟩)]⟩, .wait,
        [.sendToRM 1 (.checkPreparedMsg ⟨0, 7⟩)]⟩) :=
  ⟨rfl, rfl⟩

/-- Claim C7 (code bug): the coordinator's abort classification.  Type and
runtime errors produce a fatal QueryExecutionError response; region
conflicts, deadlock-safety abortions and timestamp conflicts produce a
non-fatal (retrying) failure; but an InvalidQueryPlan abort panics (a `TODO`
arm) instead of returning QueryExecutionError as the claim states. -/
theorem C7_ms_coord_abort_classification :
    MSCoord.handle_tm_aborted .invalidQueryPlan = none ∧
    MSCoord.handle_tm_aborted .typeError =
      some (.fatalFailure .queryExecutionError) ∧
    MSCoord.handle_tm_aborted .runtimeError =
      some (.fatalFailure .queryExecutionError) ∧
    MSCoord.handle_tm_aborted .writeRegionConflictWithSubsequentRead =
      some .nonFatalFailure ∧
    MSCoord.handle_tm_aborted .deadlockSafetyAbortion = some .nonFatalFailure ∧
    MSCoord.handle_tm_aborted .timestampConflict = some .nonFatalFailure := by
  decide

/-- The first dispatch loop forwards exactly the observations, in order. -/
theorem dispatch_observations_eq (l : List SimSlave.RemoteLeaderChangedPLm) :
    SimSlave.dispatch_observations l =
      l.map SimSlave.SlaveForwardMsg.remoteLeaderChanged := by
  induction l with
  | nil => rfl
  | cons r rest ih => simp [SimSlave.dispatch_observations, ih]

/-- The flush loop forwards, for each observation in order, the payloads it
unblocked, in buffer order. -/
theorem dispatch_flush_eq (buffer : SimSlave.NetworkBuffer)
    (l : List SimSlave.RemoteLeaderChangedPLm) :
    SimSlave.dispatch_flush buffer l =
      l.bind (fun r =>
        (buffer r.gid r.lid).map SimSlave.SlaveForwardMsg.slaveRemotePayload) := by
  induction l with
  | nil => rfl
  | cons r rest ih => simp [SimSlave.dispatch_flush, ih]

/-- Claim C8: applying a committed bundle dispatches every remote-leadership
observation (position i for the i-th observation) before the bundle's PLms
(position n), and the network-driver payloads unblocked by the observations
are delivered only after the PLms, grouped per observation in observation
order and, within a group, in buffer order. -/
theorem C8_bundle_dispatch_order (buffer : SimSlave.NetworkBuffer)
    (b : SimSlave.SlaveBundle) :
    (∀ i, (h : i < b.remote_leader_changes.length) →
      (SimSlave.handle_bundle buffer b).get? i =
        some (.remoteLeaderChanged (b.remote_leader_changes.get ⟨i, h⟩))) ∧
    (SimSlave.handle_bundle buffer b).get? b.remote_leader_changes.length =
      some (.slaveBundle b.plms) ∧
    (SimSlave.handle_bundle buffer b).drop (b.remote_leader_changes.length + 1) =
      b.remote_leader_changes.bind
        (fun r => (buffer r.gid r.lid).map SimSlave.SlaveForwardMsg.slaveRemotePayload) := by
  unfold SimSlave.handle_bundle
  rw [dispatch_observations_eq, dispatch_flush_eq]
  refine ⟨?_, ?_, ?_⟩
  · intro i h
    rw [List.get?_append (by simpa using h), List.get?_map, List.get?_eq_get h]
    rfl
  · rw [List.get?_append_right (by simp)]
    simp
  · rw [← List.append_assoc]
    have hlen : (b.remote_leader_changes.map SimSlave.SlaveForwardMsg.remoteLeaderChanged
        ++ [SimSlave.SlaveForwardMsg.slaveBundle b.plms]).length =
        b.remote_leader_changes.length + 1 := by simp
    rw [← hlen, List.drop_left]

/-- Witness for C8 at a concrete bundle with one observation and one buffered
payload: the observation is dispatched first. -/
theorem C8_witness :
    (SimSlave.handle_bundle (fun _ _ => [42]) ⟨[⟨0, ⟨1, 0⟩⟩], [7]⟩).get? 0 =
      some (.remoteLeaderChanged ⟨0, ⟨1, 0⟩⟩) :=
  (C8_bundle_dispatch_order (fun _ _ => [42]) ⟨[⟨0, ⟨1, 0⟩⟩], [7]⟩).1 0 (by decide)

/-- Claim C9: the CreateTable commit timestamp equals
max(timestamp_hint, lat + 1) for the table's recorded last-access timestamp
lat, hence is strictly greater than lat, and the TMClosedPLm carries the
wall-clock hint exactly when the transaction committed. -/
theorem C9_create_table_commit_timestamp (g : CreateTable.GossipData)
    (path : TablePath) (hint : CreateTable.Timestamp) (did_commit : Bool)
    (now : CreateTable.Timestamp) :
    ((CreateTable.apply_create g path hint).1 =
      max hint (g.table_generation.get_lat path + 1)) ∧
    (g.table_generation.get_lat path < (CreateTable.apply_create g path hint).1) ∧
    ((CreateTable.mk_closed_plm did_commit now).timestamp_hint =
      if did_commit then some now else none) := by
  refine ⟨rfl, ?_, rfl⟩
  show g.table_generation.get_lat path < max hint (g.table_generation.get_lat path + 1)
  exact Nat.lt_of_lt_of_le (Nat.lt_succ_self _) (Nat.le_max_right _ _)

/-- Claim C10: a PerformExternalQuery whose RequestId already sits in the
slave's external_request_id_map is answered with ExternalQueryAborted
carrying NonUniqueRequestId to the sender, no coordinator entry is created,
and the request-id map is left unchanged. -/
theorem C10_duplicate_request_id
    (parse : Nat → Except SlaveInit.ExternalAbortedData SlaveInit.MSQuery)
    (new_qid : QueryId) (req_map : List (RequestId × QueryId))
    (q : SlaveInit.PerformExternalQuery) (qid0 : QueryId)
    (h : P2TM.lookupKey q.request_id req_map = some qid0) :
    SlaveInit.handle_perform_external_query parse new_qid req_map q =
      { external_request_id_map := req_map
        new_coord := none
        sends := [(q.sender_eid, .externalQueryAborted q.request_id .nonUniqueRequestId)] } := by
  simp [SlaveInit.handle_perform_external_query, SlaveInit.init_request, h]

/-- Witness for C10 at a concrete duplicate request: RequestId 9 is already
mapped, so the query is rejected and nothing changes. -/
theorem C10_witness :
    SlaveInit.handle_perform_external_query (fun n => .ok n) 3 [(9, 4)] ⟨2, 9, 0⟩ =
      { external_request_id_map := [(9, 4)]
        new_coord := none
        sends := [(2, .externalQueryAborted 9 .nonUniqueRequestId)] } :=
  C10_duplicate_request_id (fun n => .ok n) 3 [(9, 4)] ⟨2, 9, 0⟩ 4 (by decide)
